import Mathlib

/-!
# capability-scorecard-tests: the dispatcher and its five handlers

A shallow embedding of `main.go`.  The program reads its argument vector,
reads a bundle from a fixed directory, dispatches on the first argument to one
of five handlers (or to `printValidTests`), and prints the resulting
`TestStatus` as indented JSON.

Effects are made explicit: a computation is a `Run α`, a trace of the
observable events it performed together with the way it ended.  Everything
the program obtains from outside (the bundle reader, the external command)
is supplied by an `Env`.
-/

namespace Scorecard

/-! ## Data model -/

/-- Go `type State string` of the scorecard result schema. -/
structure State where
  val : String
deriving DecidableEq, Repr

/-- The zero value of `State`, as in a freshly built `TestResult{}`. -/
instance : Inhabited State := ⟨⟨""⟩⟩

def PassState : State := ⟨"pass"⟩
def FailState : State := ⟨"fail"⟩
def ErrorState : State := ⟨"error"⟩

/-- A Go `[]string`: `none` is the nil slice, `some xs` a non-nil slice. -/
abbrev StringSlice := Option (List String)

/-- Go `make([]string, 0)`: a non-nil slice with no element. -/
def makeEmpty : StringSlice := some []

/-- Go `append(s, x)`; appending to the nil slice allocates. -/
def goAppend (s : StringSlice) (x : String) : StringSlice :=
  match s with
  | none => some [x]
  | some xs => some (xs ++ [x])

/-- Modelled from the spec: the record `scapiv1alpha3.TestResult` is declared
in an imported package; the spec describes it as a name, a state, an ordered
list of error strings and an ordered list of suggestion strings.  The default
field values are those of the Go zero value `TestResult{}`. -/
structure TestResult where
  Name : String := ""
  State : State := default
  Errors : StringSlice := none
  Suggestions : StringSlice := none
deriving DecidableEq, Repr

/-- Modelled from the spec: `scapiv1alpha3.TestStatus`, a wrapper holding the
`TestResult` entries. -/
structure TestStatus where
  Results : List TestResult := []
deriving DecidableEq, Repr

/-- Modelled from the spec: the primary descriptor of a bundle, of which the
program only reads the metadata annotations. -/
structure ClusterServiceVersion where
  Annotations : List (String × String)
deriving DecidableEq, Repr

/-- Go `csv.GetAnnotations()[key]`: a map lookup, the empty string when the
key is absent. -/
def ClusterServiceVersion.GetAnnotations (csv : ClusterServiceVersion) (key : String) : String :=
  match csv.Annotations.lookup key with
  | some v => v
  | none => ""

/-- Modelled from the spec: `apimanifests.Bundle`, the parsed bundle; only its
`CSV` is used. -/
structure Bundle where
  CSV : ClusterServiceVersion
deriving DecidableEq, Repr

/-! ## Effects -/

/-- What the program does that can be observed from outside, in order. -/
inductive Event where
  /-- The call `apimanifests.GetBundleFromDir(dir)`. -/
  | readBundle (dir : String)
  /-- The call `exec.Command(name, args...).Output()`. -/
  | exec (name : String) (args : List String)
  /-- A line handed to the standard logger (which writes to standard error,
  after a timestamp header that is left out here). -/
  | log (line : String)
  /-- Text written to standard output. -/
  | stdout (text : String)
deriving DecidableEq, Repr

/-- The way a computation ends: normally with a value, by `log.Fatal` (the
message is logged and the process exits with status 1), or by a runtime
panic. -/
inductive Res (α : Type) where
  | ok (a : α)
  | fatal (msg : String)
  | panic (msg : String)
deriving DecidableEq, Repr

/-- An effectful computation: the events it performed and how it ended. -/
structure Run (α : Type) where
  trace : List Event
  res : Res α
deriving DecidableEq, Repr

def Run.pure {α : Type} (a : α) : Run α := ⟨[], .ok a⟩

/-- Sequencing: the continuation runs only after a normal end. -/
def Run.bind {α β : Type} (m : Run α) (f : α → Run β) : Run β :=
  match m.res with
  | .ok a => ⟨m.trace ++ (f a).trace, (f a).res⟩
  | .fatal msg => ⟨m.trace, .fatal msg⟩
  | .panic msg => ⟨m.trace, .panic msg⟩

instance : Monad Run where
  pure := Run.pure
  bind := Run.bind

/-- What the program obtains from outside. -/
structure Env where
  /-- The result of `apimanifests.GetBundleFromDir`: a bundle or an error
  message. -/
  GetBundleFromDir : String → Except String Bundle
  /-- The result of `exec.Command(name, args...).Output()`: the captured
  standard output or an error message. -/
  Output : String → List String → Except String String

/-- Go `log.Fatal(msg)`. -/
def logFatal {α : Type} (msg : String) : Run α := ⟨[], .fatal msg⟩

/-- Go `log.Println(s)`. -/
def logPrintln (s : String) : Run Unit := ⟨[.log (s ++ "\n")], .ok ()⟩

/-- Go `fmt.Println(s)`. -/
def fmtPrintln (s : String) : Run Unit := ⟨[.stdout (s ++ "\n")], .ok ()⟩

/-- Go `fmt.Printf("%s\n", s)`. -/
def fmtPrintfLine (s : String) : Run Unit := ⟨[.stdout (s ++ "\n")], .ok ()⟩

def getBundleFromDir (env : Env) (dir : String) : Run (Except String Bundle) :=
  ⟨[.readBundle dir], .ok (env.GetBundleFromDir dir)⟩

def commandOutput (env : Env) (name : String) (args : List String) :
    Run (Except String String) :=
  ⟨[.exec name args], .ok (env.Output name args)⟩

/-! ## The program -/

def PodBundleRoot : String := "/bundle"

def CapabilityLevelOneTestName : String := "capability-level-one"
def CapabilityLevelTwoTestName : String := "capability-level-two"
def CapabilityLevelThreeTestName : String := "capability-level-three"
def CapabilityLevelFourTestName : String := "capability-level-four"
def CapabilityLevelFiveTestName : String := "capability-level-five"

def wrapResult (r : TestResult) : TestStatus :=
  { Results := [r] }

/-- The function `printValidTests` of `main.go`. -/
def printValidTests : TestStatus :=
  let result : TestResult := {}
  let result := { result with State := FailState }
  let result := { result with Errors := makeEmpty }
  let result := { result with Suggestions := makeEmpty }
  let str := "Valid tests for this image include: " ++
    CapabilityLevelOneTestName ++ " " ++
    CapabilityLevelTwoTestName ++ " " ++
    CapabilityLevelThreeTestName ++ " " ++
    CapabilityLevelFourTestName ++ " " ++
    CapabilityLevelFiveTestName
  let result := { result with Errors := goAppend result.Errors str }
  { Results := [result] }

def CapabilityLevelOneTest (env : Env) (bundle : Bundle) : Run TestStatus := do
  let r : TestResult := {}
  let r := { r with Name := CapabilityLevelOneTestName }
  let r := { r with State := PassState }
  let r := { r with Errors := makeEmpty }
  let r := { r with Suggestions := makeEmpty }
  match ← commandOutput env "/usr/local/bin/operator-sdk" ["version"] with
  | .error err => logFatal ("Unable to run operator-sdk: " ++ err)
  | .ok output =>
    logPrintln output
    let almExamples := bundle.CSV.GetAnnotations "alm-examples"
    if almExamples = "" then
      fmtPrintln "no alm-examples in the bundle CSV"
    return wrapResult r

def CapabilityLevelTwoTest (env : Env) (bundle : Bundle) : Run TestStatus := do
  let r : TestResult := {}
  let r := { r with Name := CapabilityLevelTwoTestName }
  let r := { r with State := PassState }
  let r := { r with Errors := makeEmpty }
  let r := { r with Suggestions := makeEmpty }
  match ← commandOutput env "/usr/local/bin/operator-sdk" ["version"] with
  | .error err => logFatal ("Unable to run operator-sdk: " ++ err)
  | .ok output =>
    logPrintln output
    let almExamples := bundle.CSV.GetAnnotations "alm-examples"
    if almExamples = "" then
      fmtPrintln "no alm-examples in the bundle CSV"
    return wrapResult r

def CapabilityLevelThreeTest (env : Env) (bundle : Bundle) : Run TestStatus := do
  let r : TestResult := {}
  let r := { r with Name := CapabilityLevelThreeTestName }
  let r := { r with State := PassState }
  let r := { r with Errors := makeEmpty }
  let r := { r with Suggestions := makeEmpty }
  match ← commandOutput env "/usr/local/bin/operator-sdk" ["version"] with
  | .error err => logFatal ("Unable to run operator-sdk: " ++ err)
  | .ok output =>
    logPrintln output
    let almExamples := bundle.CSV.GetAnnotations "alm-examples"
    if almExamples = "" then
      fmtPrintln "no alm-examples in the bundle CSV"
    return wrapResult r

def CapabilityLevelFourTest (env : Env) (bundle : Bundle) : Run TestStatus := do
  let r : TestResult := {}
  let r := { r with Name := CapabilityLevelFourTestName }
  let r := { r with State := PassState }
  let r := { r with Errors := makeEmpty }
  let r := { r with Suggestions := makeEmpty }
  match ← commandOutput env "/usr/local/bin/operator-sdk" ["version"] with
  | .error err => logFatal ("Unable to run operator-sdk: " ++ err)
  | .ok output =>
    logPrintln output
    let almExamples := bundle.CSV.GetAnnotations "alm-examples"
    if almExamples = "" then
      fmtPrintln "no alm-examples in the bundle CSV"
    return wrapResult r

def CapabilityLevelFiveTest (env : Env) (bundle : Bundle) : Run TestStatus := do
  let r : TestResult := {}
  let r := { r with Name := CapabilityLevelFiveTestName }
  let r := { r with State := PassState }
  let r := { r with Errors := makeEmpty }
  let r := { r with Suggestions := makeEmpty }
  match ← commandOutput env "/usr/local/bin/operator-sdk" ["version"] with
  | .error err => logFatal ("Unable to run operator-sdk: " ++ err)
  | .ok output =>
    logPrintln output
    let almExamples := bundle.CSV.GetAnnotations "alm-examples"
    if almExamples = "" then
      fmtPrintln "no alm-examples in the bundle CSV"
    return wrapResult r

/-! ## JSON serialization -/

/-- A JSON document, as far as the result schema needs it. -/
inductive JSON where
  | null
  | str (s : String)
  | arr (elems : List JSON)
  | obj (members : List (String × JSON))
deriving Repr

/-- The member of a JSON object stored under `key`, if any. -/
def JSON.member (key : String) : JSON → Option JSON
  | .obj members => members.lookup key
  | _ => none

/-- The escape sequence `encoding/json` writes for one character of a string:
the quote and the backslash are escaped, control characters are written as
`\n`, `\r`, `\t` or `\u00XX`, and `<`, `>`, `&`, U+2028 and U+2029 as
`\uXXXX`. -/
def escapeChar (c : Char) : String :=
  if c.toNat = 34 then "\\\"" else
  if c.toNat = 92 then "\\\\" else
  if c.toNat = 10 then "\\n" else
  if c.toNat = 13 then "\\r" else
  if c.toNat = 9 then "\\t" else
  if c.toNat < 32 then
    "\\u00" ++ String.mk [Nat.digitChar (c.toNat / 16), Nat.digitChar (c.toNat % 16)] else
  if c.toNat = 60 then "\\u003c" else
  if c.toNat = 62 then "\\u003e" else
  if c.toNat = 38 then "\\u0026" else
  if c.toNat = 8232 then "\\u2028" else
  if c.toNat = 8233 then "\\u2029" else
  String.singleton c

/-- A JSON string literal. -/
def quote (s : String) : String :=
  "\"" ++ String.join (s.toList.map escapeChar) ++ "\""

/-- The line break of indented output at nesting `depth`: a newline, the line
header `pfx`, and `depth` copies of `indent`. -/
def newline (pfx indent : String) (depth : Nat) : String :=
  "\n" ++ pfx ++ String.join (List.replicate depth indent)

mutual
/-- The indented text of a JSON document, as `json.MarshalIndent` lays it out:
every element of a non-empty array or object starts a line of its own, a
colon is followed by one blank, and an empty array or object is written
without a line break. -/
def render (pfx indent : String) (depth : Nat) : JSON → String
  | .null => "null"
  | .str s => quote s
  | .arr [] => "[]"
  | .arr (x :: xs) =>
    "[" ++ newline pfx indent (depth + 1) ++ render pfx indent (depth + 1) x ++
      renderElems pfx indent (depth + 1) xs ++ newline pfx indent depth ++ "]"
  | .obj [] => "\x7b\x7d"
  | .obj ((k, v) :: kvs) =>
    "\x7b" ++ newline pfx indent (depth + 1) ++ quote k ++ ": " ++
      render pfx indent (depth + 1) v ++
      renderMembers pfx indent (depth + 1) kvs ++ newline pfx indent depth ++ "\x7d"
/-- The remaining elements of an array, each after a comma. -/
def renderElems (pfx indent : String) (depth : Nat) : List JSON → String
  | [] => ""
  | x :: xs =>
    "," ++ newline pfx indent depth ++ render pfx indent depth x ++
      renderElems pfx indent depth xs
/-- The remaining members of an object, each after a comma. -/
def renderMembers (pfx indent : String) (depth : Nat) : List (String × JSON) → String
  | [] => ""
  | (k, v) :: kvs =>
    "," ++ newline pfx indent depth ++ quote k ++ ": " ++ render pfx indent depth v ++
      renderMembers pfx indent depth kvs
end

/-- The member a string field tagged `omitempty` contributes to its object:
none when the string is empty. -/
def omitEmptyString (key : String) (s : String) : List (String × JSON) :=
  if s = "" then [] else [(key, .str s)]

/-- The member a `[]string` field tagged `omitempty` contributes to its
object: none when the slice has no element, be it nil or not. -/
def omitEmptySlice (key : String) : StringSlice → List (String × JSON)
  | none => []
  | some [] => []
  | some (x :: xs) => [(key, .arr ((x :: xs).map JSON.str))]

/-- Modelled from the spec: the output is a JSON object "matching the external
TestStatus/TestResult schema".  That schema is the declaration of
`scapiv1alpha3.TestResult` in the imported package, whose field tags are
`name,omitempty`, `log,omitempty`, `state`, `errors,omitempty` and
`suggestions,omitempty`: the state is always written, every other field only
when it is not empty.  The program never assigns `Log`, which is therefore
never written. -/
def TestResult.toJSON (r : TestResult) : JSON :=
  .obj (omitEmptyString "name" r.Name ++ [("state", .str r.State.val)] ++
        omitEmptySlice "errors" r.Errors ++ omitEmptySlice "suggestions" r.Suggestions)

/-- Modelled from the spec: the JSON object of `scapiv1alpha3.TestStatus`,
whose only field is tagged `results,omitempty`. -/
def TestStatus.toJSON (s : TestStatus) : JSON :=
  match s.Results with
  | [] => .obj []
  | r :: rs => .obj [("results", .arr ((r :: rs).map TestResult.toJSON))]

/-- Go `json.MarshalIndent(v, pfx, indent)` at a `TestStatus`.  Strings and
slices of strings always serialize, so the error branch is never taken. -/
def MarshalIndent (v : TestStatus) (pfx indent : String) : Except String String :=
  .ok (render pfx indent 0 v.toJSON)

/-! ## The dispatcher -/

/-- The function `main` of `main.go`, on the argument vector `osArgs`
(`os.Args`, the program name first).  A normal end carries the final value of
the local variable `result`. -/
def main (env : Env) (osArgs : List String) : Run TestStatus :=
  match osArgs with
  | [] => ⟨[], .panic "runtime error: slice bounds out of range [1:0]"⟩
  | _ :: entrypoint =>
    match entrypoint with
    | [] => logFatal "Test name argument is required"
    | name :: _ => do
      match ← getBundleFromDir env PodBundleRoot with
      | .error err => logFatal err
      | .ok cfg =>
        let result ←
          if name = CapabilityLevelOneTestName then CapabilityLevelOneTest env cfg
          else if name = CapabilityLevelTwoTestName then CapabilityLevelTwoTest env cfg
          else if name = CapabilityLevelThreeTestName then CapabilityLevelThreeTest env cfg
          else if name = CapabilityLevelFourTestName then CapabilityLevelFourTest env cfg
          else if name = CapabilityLevelFiveTestName then CapabilityLevelFiveTest env cfg
          else pure printValidTests
        match MarshalIndent result "" "    " with
        | .error err => logFatal ("Failed to generate json" ++ err)
        | .ok prettyJSON =>
          fmtPrintfLine prettyJSON
          return result

/-! ## Vocabulary of the statements -/

/-- The test names the `switch` of `main` recognises, in source order. -/
def validTestNames : List String :=
  [CapabilityLevelOneTestName, CapabilityLevelTwoTestName, CapabilityLevelThreeTestName,
   CapabilityLevelFourTestName, CapabilityLevelFiveTestName]

/-- The five handlers, each with the name constant its `case` tests for. -/
def handlers : List (String × (Env → Bundle → Run TestStatus)) :=
  [(CapabilityLevelOneTestName, CapabilityLevelOneTest),
   (CapabilityLevelTwoTestName, CapabilityLevelTwoTest),
   (CapabilityLevelThreeTestName, CapabilityLevelThreeTest),
   (CapabilityLevelFourTestName, CapabilityLevelFourTest),
   (CapabilityLevelFiveTestName, CapabilityLevelFiveTest)]

/-- The texts written to standard output, in order. -/
def stdoutOf (t : List Event) : List String :=
  t.filterMap fun e => match e with
    | .stdout text => some text
    | _ => none

/-- The external commands run, in order. -/
def execsOf (t : List Event) : List (String × List String) :=
  t.filterMap fun e => match e with
    | .exec name args => some (name, args)
    | _ => none

/-- The directories a bundle was read from, in order. -/
def readsOf (t : List Event) : List String :=
  t.filterMap fun e => match e with
    | .readBundle dir => some dir
    | _ => none

/-- The text `main` prints for a status: its indented JSON and a newline. -/
def printed (st : TestStatus) : String :=
  render "" "    " 0 st.toJSON ++ "\n"

/-- The line a handler prints when the bundle has no `alm-examples`. -/
def noExamplesLine : String := "no alm-examples in the bundle CSV\n"

/-- The message `printValidTests` records. -/
def validTestsMessage : String :=
  "Valid tests for this image include: capability-level-one capability-level-two capability-level-three capability-level-four capability-level-five"

/-- The body shared by the five handlers of `main.go`, with the test name as a
parameter: the generic handler the five are compared with. -/
def genericHandler (name : String) (env : Env) (bundle : Bundle) : Run TestStatus := do
  let r : TestResult := {}
  let r := { r with Name := name }
  let r := { r with State := PassState }
  let r := { r with Errors := makeEmpty }
  let r := { r with Suggestions := makeEmpty }
  match ← commandOutput env "/usr/local/bin/operator-sdk" ["version"] with
  | .error err => logFatal ("Unable to run operator-sdk: " ++ err)
  | .ok output =>
    logPrintln output
    let almExamples := bundle.CSV.GetAnnotations "alm-examples"
    if almExamples = "" then
      fmtPrintln "no alm-examples in the bundle CSV"
    return wrapResult r

/-- A status with the `Name` of every result blanked: what is left to compare
"in every field except Name". -/
def TestStatus.withoutNames (st : TestStatus) : TestStatus :=
  { Results := st.Results.map fun r => { r with Name := "" } }

/-- The end of a computation with its value transformed. -/
def Res.map {α β : Type} (f : α → β) : Res α → Res β
  | .ok a => .ok (f a)
  | .fatal msg => .fatal msg
  | .panic msg => .panic msg

/-- The statuses the program can produce: the value a handler returns, the
value of `printValidTests`, the value `main` ends with. -/
inductive Produced : TestStatus → Prop where
  | byHandler (p : String × (Env → Bundle → Run TestStatus)) (hp : p ∈ handlers)
      (env : Env) (bundle : Bundle) (st : TestStatus)
      (h : (p.2 env bundle).res = .ok st) : Produced st
  | byPrintValidTests : Produced printValidTests
  | byMain (env : Env) (osArgs : List String) (st : TestStatus)
      (h : (main env osArgs).res = .ok st) : Produced st

/-! ## Sample inputs -/

/-- A bundle whose descriptor carries an `alm-examples` annotation. -/
def sampleBundle : Bundle := ⟨⟨[("alm-examples", "[]")]⟩⟩

/-- A bundle whose descriptor has no annotation at all. -/
def bareBundle : Bundle := ⟨⟨[]⟩⟩

/-- The bundle is readable and the version command works. -/
def sampleEnv : Env :=
  ⟨fun _ => .ok sampleBundle, fun _ _ => .ok "operator-sdk version: v1.0.0"⟩

/-- As `sampleEnv`, with the bundle that lacks the annotation. -/
def bareEnv : Env :=
  ⟨fun _ => .ok bareBundle, fun _ _ => .ok "operator-sdk version: v1.0.0"⟩

/-- The bundle is readable and the version command fails. -/
def brokenSdkEnv : Env :=
  ⟨fun _ => .ok sampleBundle, fun _ _ => .error "exit status 1"⟩

/-- The bundle directory cannot be read. -/
def noBundleEnv : Env :=
  ⟨fun _ => .error "stat /bundle: no such file or directory",
   fun _ _ => .ok "operator-sdk version: v1.0.0"⟩

/-! ## The outcome of a handler and of the dispatcher, case by case -/

theorem handlers_ok {p : String × (Env → Bundle → Run TestStatus)} (hp : p ∈ handlers)
    (env : Env) (bundle : Bundle) (output : String)
    (hout : env.Output "/usr/local/bin/operator-sdk" ["version"] = .ok output) :
    p.2 env bundle =
      ⟨Event.exec "/usr/local/bin/operator-sdk" ["version"] :: Event.log (output ++ "\n") ::
          (if bundle.CSV.GetAnnotations "alm-examples" = "" then [Event.stdout noExamplesLine]
           else []),
        .ok ⟨[⟨p.1, PassState, some [], some []⟩]⟩⟩ := by
  simp only [handlers, List.mem_cons, List.mem_singleton, List.not_mem_nil, or_false] at hp
  rcases hp with h | h | h | h | h <;> subst h <;>
    by_cases ha : bundle.CSV.GetAnnotations "alm-examples" = "" <;>
    simp [CapabilityLevelOneTest, CapabilityLevelTwoTest, CapabilityLevelThreeTest,
      CapabilityLevelFourTest, CapabilityLevelFiveTest, commandOutput, logPrintln, fmtPrintln,
      logFatal, wrapResult, makeEmpty, noExamplesLine, bind, Run.bind, pure, Run.pure, hout, ha]

theorem handlers_error {p : String × (Env → Bundle → Run TestStatus)} (hp : p ∈ handlers)
    (env : Env) (bundle : Bundle) (err : String)
    (hout : env.Output "/usr/local/bin/operator-sdk" ["version"] = .error err) :
    p.2 env bundle =
      ⟨[Event.exec "/usr/local/bin/operator-sdk" ["version"]],
        .fatal ("Unable to run operator-sdk: " ++ err)⟩ := by
  simp only [handlers, List.mem_cons, List.mem_singleton, List.not_mem_nil, or_false] at hp
  rcases hp with h | h | h | h | h <;> subst h <;>
    simp [CapabilityLevelOneTest, CapabilityLevelTwoTest, CapabilityLevelThreeTest,
      CapabilityLevelFourTest, CapabilityLevelFiveTest, commandOutput, logPrintln, fmtPrintln,
      logFatal, bind, Run.bind, hout]

theorem exists_handler_of_valid {name : String} (h : name ∈ validTestNames) :
    ∃ p ∈ handlers, p.1 = name := by
  simp only [validTestNames, List.mem_cons, List.mem_singleton, List.not_mem_nil, or_false] at h
  rcases h with h | h | h | h | h <;> subst h
  · exact ⟨(CapabilityLevelOneTestName, CapabilityLevelOneTest), by simp [handlers], rfl⟩
  · exact ⟨(CapabilityLevelTwoTestName, CapabilityLevelTwoTest), by simp [handlers], rfl⟩
  · exact ⟨(CapabilityLevelThreeTestName, CapabilityLevelThreeTest), by simp [handlers], rfl⟩
  · exact ⟨(CapabilityLevelFourTestName, CapabilityLevelFourTest), by simp [handlers], rfl⟩
  · exact ⟨(CapabilityLevelFiveTestName, CapabilityLevelFiveTest), by simp [handlers], rfl⟩

theorem valid_of_mem_handlers {p : String × (Env → Bundle → Run TestStatus)}
    (hp : p ∈ handlers) : p.1 ∈ validTestNames := by
  simp only [handlers, List.mem_cons, List.mem_singleton, List.not_mem_nil, or_false] at hp
  rcases hp with h | h | h | h | h <;> subst h <;> simp [validTestNames]

theorem main_no_test_name (env : Env) (prog : String) :
    main env [prog] = ⟨[], .fatal "Test name argument is required"⟩ := rfl

theorem main_read_error (env : Env) (prog name : String) (rest : List String) (err : String)
    (hb : env.GetBundleFromDir PodBundleRoot = .error err) :
    main env (prog :: name :: rest) = ⟨[Event.readBundle PodBundleRoot], .fatal err⟩ := by
  simp [main, getBundleFromDir, logFatal, bind, Run.bind, hb]

/-- The dispatcher after a successful read: the selected computation, then the
printing of its status. -/
theorem main_selected {p : String × (Env → Bundle → Run TestStatus)} (hp : p ∈ handlers)
    (env : Env) (prog : String) (rest : List String) (cfg : Bundle)
    (hb : env.GetBundleFromDir PodBundleRoot = .ok cfg) :
    main env (prog :: p.1 :: rest) =
      match (p.2 env cfg).res with
      | .ok st =>
        ⟨Event.readBundle PodBundleRoot :: ((p.2 env cfg).trace ++ [Event.stdout (printed st)]),
          .ok st⟩
      | .fatal msg => ⟨Event.readBundle PodBundleRoot :: (p.2 env cfg).trace, .fatal msg⟩
      | .panic msg => ⟨Event.readBundle PodBundleRoot :: (p.2 env cfg).trace, .panic msg⟩ := by
  simp only [handlers, List.mem_cons, List.mem_singleton, List.not_mem_nil, or_false] at hp
  rcases hp with h | h | h | h | h <;> subst h <;>
    simp only [main, getBundleFromDir, bind, Run.bind, hb, MarshalIndent, fmtPrintfLine, pure,
      Run.pure, printed, CapabilityLevelOneTestName, CapabilityLevelTwoTestName,
      CapabilityLevelThreeTestName, CapabilityLevelFourTestName, CapabilityLevelFiveTestName] <;>
    simp <;>
    cases (_ : Run TestStatus).res <;> simp

theorem main_unrecognized (env : Env) (prog name : String) (rest : List String) (cfg : Bundle)
    (hn : name ∉ validTestNames) (hb : env.GetBundleFromDir PodBundleRoot = .ok cfg) :
    main env (prog :: name :: rest) =
      ⟨[Event.readBundle PodBundleRoot, Event.stdout (printed printValidTests)],
        .ok printValidTests⟩ := by
  simp only [validTestNames, List.mem_cons, List.mem_singleton, List.not_mem_nil, or_false,
    not_or] at hn
  obtain ⟨h1, h2, h3, h4, h5⟩ := hn
  simp [main, getBundleFromDir, bind, Run.bind, hb, MarshalIndent, fmtPrintfLine, pure,
    Run.pure, printed, h1, h2, h3, h4, h5]

theorem main_recognized_ok {p : String × (Env → Bundle → Run TestStatus)} (hp : p ∈ handlers)
    (env : Env) (prog : String) (rest : List String) (cfg : Bundle) (output : String)
    (hb : env.GetBundleFromDir PodBundleRoot = .ok cfg)
    (hout : env.Output "/usr/local/bin/operator-sdk" ["version"] = .ok output) :
    main env (prog :: p.1 :: rest) =
      ⟨Event.readBundle PodBundleRoot ::
        Event.exec "/usr/local/bin/operator-sdk" ["version"] :: Event.log (output ++ "\n") ::
          ((if cfg.CSV.GetAnnotations "alm-examples" = "" then [Event.stdout noExamplesLine]
            else []) ++ [Event.stdout (printed ⟨[⟨p.1, PassState, some [], some []⟩]⟩)]),
        .ok ⟨[⟨p.1, PassState, some [], some []⟩]⟩⟩ := by
  rw [main_selected hp env prog rest cfg hb, handlers_ok hp env cfg output hout]
  simp

theorem main_recognized_error {p : String × (Env → Bundle → Run TestStatus)}
    (hp : p ∈ handlers) (env : Env) (prog : String) (rest : List String) (cfg : Bundle)
    (err : String) (hb : env.GetBundleFromDir PodBundleRoot = .ok cfg)
    (hout : env.Output "/usr/local/bin/operator-sdk" ["version"] = .error err) :
    main env (prog :: p.1 :: rest) =
      ⟨[Event.readBundle PodBundleRoot, Event.exec "/usr/local/bin/operator-sdk" ["version"]],
        .fatal ("Unable to run operator-sdk: " ++ err)⟩ := by
  rw [main_selected hp env prog rest cfg hb, handlers_error hp env cfg err hout]

theorem printValidTests_eq :
    printValidTests = ⟨[⟨"", FailState, some [validTestsMessage], some []⟩]⟩ := by
  decide

/-! ## The claims -/

/-- C1: when the first argument is one of the five recognised test names
(whatever arguments follow), the bundle is read successfully and the external
version command succeeds, the dispatcher ends normally with a status that
holds exactly one result, whose `Name` is that first argument and whose
`State` is pass. -/
theorem main_recognized_pass (env : Env) (prog name : String) (rest : List String)
    (cfg : Bundle) (output : String)
    (hn : name ∈ validTestNames)
    (hb : env.GetBundleFromDir PodBundleRoot = .ok cfg)
    (hout : env.Output "/usr/local/bin/operator-sdk" ["version"] = .ok output) :
    ∃ r : TestResult,
      (main env (prog :: name :: rest)).res = .ok ⟨[r]⟩ ∧ r.Name = name ∧ r.State = PassState := by
  obtain ⟨p, hp, rfl⟩ := exists_handler_of_valid hn
  refine ⟨⟨p.1, PassState, some [], some []⟩, ?_, rfl, rfl⟩
  rw [main_recognized_ok hp env prog rest cfg output hb hout]

theorem main_recognized_pass_witness :
    ∃ r : TestResult,
      (main sampleEnv ["scorecard-test", "capability-level-three", "extra"]).res = .ok ⟨[r]⟩ ∧
        r.Name = "capability-level-three" ∧ r.State = PassState :=
  main_recognized_pass sampleEnv "scorecard-test" "capability-level-three" ["extra"]
    sampleBundle "operator-sdk version: v1.0.0" (by decide) rfl rfl

/-- C2: when the first argument is not exactly one of the five valid test
names (a different letter case, surrounding blanks and the empty string are
such arguments) and the bundle is readable, the dispatcher ends normally with
a status that holds exactly one result, whose `State` is fail and whose
`Errors` hold exactly one string, the message naming the five valid test
names in order. -/
theorem main_unrecognized_fail :
    "Capability-Level-One" ∉ validTestNames ∧ " capability-level-one " ∉ validTestNames ∧
    "" ∉ validTestNames ∧
    ∀ (env : Env) (prog name : String) (rest : List String) (cfg : Bundle),
      name ∉ validTestNames → env.GetBundleFromDir PodBundleRoot = .ok cfg →
      ∃ r : TestResult,
        (main env (prog :: name :: rest)).res = .ok ⟨[r]⟩ ∧ r.State = FailState ∧
        r.Errors = some ["Valid tests for this image include: capability-level-one capability-level-two capability-level-three capability-level-four capability-level-five"] := by
  refine ⟨by decide, by decide, by decide, ?_⟩
  intro env prog name rest cfg hn hb
  refine ⟨⟨"", FailState, some [validTestsMessage], some []⟩, ?_, rfl, rfl⟩
  rw [main_unrecognized env prog name rest cfg hn hb, printValidTests_eq]

theorem main_unrecognized_fail_witness :
    ∃ r : TestResult,
      (main sampleEnv ["scorecard-test", "Capability-Level-One"]).res = .ok ⟨[r]⟩ ∧
        r.State = FailState ∧
        r.Errors = some ["Valid tests for this image include: capability-level-one capability-level-two capability-level-three capability-level-four capability-level-five"] :=
  main_unrecognized_fail.2.2.2 sampleEnv "scorecard-test" "Capability-Level-One" []
    sampleBundle (by decide) rfl

/-- C5: with no test name among the arguments the dispatcher ends by
`log.Fatal` with the message "Test name argument is required", having read no
bundle, run no external command and written nothing to standard output,
whatever the environment would have returned. -/
theorem main_no_argument_fatal (env : Env) (prog : String) :
    (main env [prog]).res = .fatal "Test name argument is required" ∧
    readsOf (main env [prog]).trace = [] ∧
    execsOf (main env [prog]).trace = [] ∧
    stdoutOf (main env [prog]).trace = [] ∧
    (main env [prog]).trace = [] := by
  rw [main_no_test_name]
  exact ⟨rfl, rfl, rfl, rfl, rfl⟩

/-- C8: for every non-empty argument list, when reading the bundle from the
fixed path fails the dispatcher ends by `log.Fatal` with the reader's error
message, after the read alone and with nothing written to standard output,
for recognised and unrecognised test names alike; hence an unrecognised test
name ends normally (with the fail payload) only when the bundle was read
successfully. -/
theorem main_bundle_unreadable_fatal :
    (∀ (env : Env) (prog name : String) (rest : List String) (err : String),
      env.GetBundleFromDir PodBundleRoot = .error err →
      (main env (prog :: name :: rest)).res = .fatal err ∧
      (main env (prog :: name :: rest)).trace = [Event.readBundle "/bundle"] ∧
      stdoutOf (main env (prog :: name :: rest)).trace = [] ∧
      execsOf (main env (prog :: name :: rest)).trace = []) ∧
    (∀ (env : Env) (prog name : String) (rest : List String) (st : TestStatus),
      name ∉ validTestNames → (main env (prog :: name :: rest)).res = .ok st →
      ∃ cfg, env.GetBundleFromDir PodBundleRoot = .ok cfg) := by
  constructor
  · intro env prog name rest err hb
    rw [main_read_error env prog name rest err hb]
    exact ⟨rfl, rfl, rfl, rfl⟩
  · intro env prog name rest st _ hres
    cases hb : env.GetBundleFromDir PodBundleRoot with
    | ok cfg => exact ⟨cfg, rfl⟩
    | error err =>
      rw [main_read_error env prog name rest err hb] at hres
      cases hres

theorem main_bundle_unreadable_fatal_witness :
    (main noBundleEnv ["scorecard-test", "capability-level-two"]).res =
        .fatal "stat /bundle: no such file or directory" ∧
      (main noBundleEnv ["scorecard-test", "capability-level-two"]).trace =
        [Event.readBundle "/bundle"] ∧
      stdoutOf (main noBundleEnv ["scorecard-test", "capability-level-two"]).trace = [] ∧
      execsOf (main noBundleEnv ["scorecard-test", "capability-level-two"]).trace = [] :=
  main_bundle_unreadable_fatal.1 noBundleEnv "scorecard-test" "capability-level-two" []
    "stat /bundle: no such file or directory" rfl

/-- C3, as stated, fails: with a recognised test name and a bundle without the
`alm-examples` annotation the run ends normally, and standard output receives
the line "no alm-examples in the bundle CSV" before the JSON text, so the
JSON text is not the sole thing written. -/
theorem main_stdout_not_only_json :
    (main bareEnv ["scorecard-test", "capability-level-one"]).res =
        .ok ⟨[⟨"capability-level-one", PassState, some [], some []⟩]⟩ ∧
      stdoutOf (main bareEnv ["scorecard-test", "capability-level-one"]).trace =
        ["no alm-examples in the bundle CSV\n",
         printed ⟨[⟨"capability-level-one", PassState, some [], some []⟩]⟩] ∧
      stdoutOf (main bareEnv ["scorecard-test", "capability-level-one"]).trace ≠
        [printed ⟨[⟨"capability-level-one", PassState, some [], some []⟩]⟩] := by
  have hp : (CapabilityLevelOneTestName, CapabilityLevelOneTest) ∈ handlers := by
    simp [handlers]
  have h := main_recognized_ok hp bareEnv "scorecard-test" [] bareBundle
    "operator-sdk version: v1.0.0" rfl rfl
  have e : main bareEnv ["scorecard-test", "capability-level-one"] =
      main bareEnv ("scorecard-test" :: CapabilityLevelOneTestName :: []) := rfl
  rw [e, h]
  refine ⟨rfl, ?_, ?_⟩ <;>
    simp [stdoutOf, bareBundle, ClusterServiceVersion.GetAnnotations, noExamplesLine,
      CapabilityLevelOneTestName]

/-- C3, amended: on every run of the dispatcher that ends normally, the
indented JSON text of the resulting status, followed by a newline, is the
last thing written to standard output; it is the only thing written unless
the test name is a recognised one and the `alm-examples` annotation of the
bundle is empty, in which case the line "no alm-examples in the bundle CSV"
is written just before it. -/
theorem main_stdout_on_success (env : Env) (osArgs : List String) (st : TestStatus)
    (h : (main env osArgs).res = .ok st) :
    ∃ (prog name : String) (rest : List String) (cfg : Bundle),
      osArgs = prog :: name :: rest ∧ env.GetBundleFromDir PodBundleRoot = .ok cfg ∧
      stdoutOf (main env osArgs).trace =
        (if name ∈ validTestNames ∧ cfg.CSV.GetAnnotations "alm-examples" = ""
          then ["no alm-examples in the bundle CSV\n"] else []) ++ [printed st] := by
  match osArgs, h with
  | [], h => cases h
  | [prog], h => rw [main_no_test_name] at h; cases h
  | prog :: name :: rest, h =>
    cases hb : env.GetBundleFromDir PodBundleRoot with
    | error err => rw [main_read_error env prog name rest err hb] at h; cases h
    | ok cfg =>
      refine ⟨prog, name, rest, cfg, rfl, rfl, ?_⟩
      by_cases hn : name ∈ validTestNames
      · obtain ⟨p, hp, rfl⟩ := exists_handler_of_valid hn
        cases hout : env.Output "/usr/local/bin/operator-sdk" ["version"] with
        | error err =>
          rw [main_recognized_error hp env prog rest cfg err hb hout] at h; cases h
        | ok output =>
          rw [main_recognized_ok hp env prog rest cfg output hb hout] at h ⊢
          simp only [Res.ok.injEq] at h
          subst h
          by_cases ha : cfg.CSV.GetAnnotations "alm-examples" = "" <;>
            simp [stdoutOf, hn, ha, noExamplesLine]
      · rw [main_unrecognized env prog name rest cfg hn hb] at h ⊢
        simp only [Res.ok.injEq] at h
        subst h
        simp [stdoutOf, hn]

theorem main_stdout_on_success_witness :
    ∃ (prog name : String) (rest : List String) (cfg : Bundle),
      ["scorecard-test", "capability-level-four"] = prog :: name :: rest ∧
      sampleEnv.GetBundleFromDir PodBundleRoot = .ok cfg ∧
      stdoutOf (main sampleEnv ["scorecard-test", "capability-level-four"]).trace =
        (if name ∈ validTestNames ∧ cfg.CSV.GetAnnotations "alm-examples" = ""
          then ["no alm-examples in the bundle CSV\n"] else []) ++
          [printed ⟨[⟨"capability-level-four", PassState, some [], some []⟩]⟩] :=
  main_stdout_on_success sampleEnv ["scorecard-test", "capability-level-four"]
    ⟨[⟨"capability-level-four", PassState, some [], some []⟩]⟩ rfl

theorem handlers_res_ok {p : String × (Env → Bundle → Run TestStatus)} (hp : p ∈ handlers)
    (env : Env) (bundle : Bundle) (st : TestStatus) (h : (p.2 env bundle).res = .ok st) :
    st = ⟨[⟨p.1, PassState, some [], some []⟩]⟩ := by
  cases hout : env.Output "/usr/local/bin/operator-sdk" ["version"] with
  | error err => rw [handlers_error hp env bundle err hout] at h; cases h
  | ok output =>
    rw [handlers_ok hp env bundle output hout] at h
    simp only [Res.ok.injEq] at h
    exact h.symm

theorem main_res_ok (env : Env) (osArgs : List String) (st : TestStatus)
    (h : (main env osArgs).res = .ok st) :
    st = printValidTests ∨ ∃ name, st = ⟨[⟨name, PassState, some [], some []⟩]⟩ := by
  match osArgs, h with
  | [], h => cases h
  | [prog], h => rw [main_no_test_name] at h; cases h
  | prog :: name :: rest, h =>
    cases hb : env.GetBundleFromDir PodBundleRoot with
    | error err => rw [main_read_error env prog name rest err hb] at h; cases h
    | ok cfg =>
      by_cases hn : name ∈ validTestNames
      · obtain ⟨p, hp, rfl⟩ := exists_handler_of_valid hn
        cases hout : env.Output "/usr/local/bin/operator-sdk" ["version"] with
        | error err =>
          rw [main_recognized_error hp env prog rest cfg err hb hout] at h; cases h
        | ok output =>
          rw [main_recognized_ok hp env prog rest cfg output hb hout] at h
          simp only [Res.ok.injEq] at h
          exact Or.inr ⟨p.1, h.symm⟩
      · rw [main_unrecognized env prog name rest cfg hn hb] at h
        simp only [Res.ok.injEq] at h
        exact Or.inl h.symm

set_option maxRecDepth 100000 in
/-- The text printed for the status of a handler, in full. -/
theorem printed_pass_status {name : String} (hn : name ∈ validTestNames) :
    printed ⟨[⟨name, PassState, some [], some []⟩]⟩ =
      "\x7b\n    \"results\": [\n        \x7b\n            \"name\": \"" ++ name ++
      "\",\n            \"state\": \"pass\"\n        \x7d\n    ]\n\x7d\n" := by
  simp only [validTestNames, List.mem_cons, List.mem_singleton, List.not_mem_nil, or_false] at hn
  rcases hn with h | h | h | h | h <;> subst h <;> rfl

set_option maxRecDepth 100000 in
/-- The text printed for the status of `printValidTests`, in full. -/
theorem printed_printValidTests :
    printed printValidTests =
      "\x7b\n    \"results\": [\n        \x7b\n            \"state\": \"fail\",\n            \"errors\": [\n                \"Valid tests for this image include: capability-level-one capability-level-two capability-level-three capability-level-four capability-level-five\"\n            ]\n        \x7d\n    ]\n\x7d\n" := by
  rfl

set_option maxRecDepth 100000 in
/-- The text `json.MarshalIndent` returns for the status of a handler. -/
theorem marshalIndent_pass_status {name : String} (hn : name ∈ validTestNames) :
    MarshalIndent ⟨[⟨name, PassState, some [], some []⟩]⟩ "" "    " =
      .ok ("\x7b\n    \"results\": [\n        \x7b\n            \"name\": \"" ++ name ++
        "\",\n            \"state\": \"pass\"\n        \x7d\n    ]\n\x7d") := by
  simp only [validTestNames, List.mem_cons, List.mem_singleton, List.not_mem_nil, or_false] at hn
  rcases hn with h | h | h | h | h <;> subst h <;> rfl

theorem member_lists_pass_status (name : String) :
    (⟨name, PassState, some [], some []⟩ : TestResult).toJSON.member "errors" = none ∧
    (⟨name, PassState, some [], some []⟩ : TestResult).toJSON.member "suggestions" = none := by
  by_cases h : name = "" <;>
    simp [TestResult.toJSON, JSON.member, omitEmptyString, omitEmptySlice, List.lookup, h]

theorem stdout_recognized_ok {p : String × (Env → Bundle → Run TestStatus)} (hp : p ∈ handlers)
    (env : Env) (prog : String) (rest : List String) (cfg : Bundle) (output : String)
    (hb : env.GetBundleFromDir PodBundleRoot = .ok cfg)
    (hout : env.Output "/usr/local/bin/operator-sdk" ["version"] = .ok output) :
    stdoutOf (main env (prog :: p.1 :: rest)).trace =
      (if cfg.CSV.GetAnnotations "alm-examples" = "" then [noExamplesLine] else []) ++
        [printed ⟨[⟨p.1, PassState, some [], some []⟩]⟩] := by
  rw [main_recognized_ok hp env prog rest cfg output hb hout]
  by_cases ha : cfg.CSV.GetAnnotations "alm-examples" = "" <;> simp [stdoutOf, ha]

/-- C4, as stated, fails: for the test name capability-level-one, a readable
bundle and a working version command, the `Errors` and `Suggestions` of the
result are non-nil empty slices, yet the JSON object of the result has no
member under `errors` or under `suggestions`, and the text written to standard
output names neither. -/
theorem main_output_omits_empty_lists :
    (main sampleEnv ["scorecard-test", "capability-level-one"]).res =
        .ok ⟨[⟨"capability-level-one", PassState, some [], some []⟩]⟩ ∧
      (⟨"capability-level-one", PassState, some [], some []⟩ : TestResult).toJSON.member
        "errors" = none ∧
      (⟨"capability-level-one", PassState, some [], some []⟩ : TestResult).toJSON.member
        "suggestions" = none ∧
      MarshalIndent ⟨[⟨"capability-level-one", PassState, some [], some []⟩]⟩ "" "    " =
        .ok ("\x7b\n    \"results\": [\n        \x7b\n            \"name\": \"capability-level-one\",\n            \"state\": \"pass\"\n        \x7d\n    ]\n\x7d") ∧
      stdoutOf (main sampleEnv ["scorecard-test", "capability-level-one"]).trace =
        ["\x7b\n    \"results\": [\n        \x7b\n            \"name\": \"capability-level-one\",\n            \"state\": \"pass\"\n        \x7d\n    ]\n\x7d\n"] := by
  have hp : (CapabilityLevelOneTestName, CapabilityLevelOneTest) ∈ handlers := by
    simp [handlers]
  have hn : CapabilityLevelOneTestName ∈ validTestNames := by simp [validTestNames]
  have e : main sampleEnv ["scorecard-test", "capability-level-one"] =
      main sampleEnv ("scorecard-test" :: CapabilityLevelOneTestName :: []) := rfl
  refine ⟨?_, (member_lists_pass_status _).1, (member_lists_pass_status _).2,
    marshalIndent_pass_status hn, ?_⟩
  · rw [e, main_recognized_ok hp sampleEnv "scorecard-test" [] sampleBundle
      "operator-sdk version: v1.0.0" rfl rfl]
    rfl
  · rw [e, stdout_recognized_ok hp sampleEnv "scorecard-test" [] sampleBundle
      "operator-sdk version: v1.0.0" rfl rfl]
    have ha : ¬ sampleBundle.CSV.GetAnnotations "alm-examples" = "" := by decide
    rw [if_neg ha]
    exact congrArg (fun t => [t]) (printed_pass_status hn)

/-- C4, amended: in every status the program can produce (by one of the five
handlers, by `printValidTests`, by the dispatcher) there is exactly one
result, whose `Errors` and `Suggestions` are non-nil slices; in the JSON
object of the result a list is a member (an array under its key) exactly when
it is not empty.  So the text the dispatcher writes to standard output for a
recognised test name has neither list, and the text for an unrecognised one
has the errors, holding the one message, and no suggestions. -/
theorem produced_lists_nonnil_output_omits_empty :
    (∀ st, Produced st →
      ∃ (r : TestResult) (es ss : List String), st.Results = [r] ∧
        r.Errors = some es ∧ r.Suggestions = some ss ∧
        r.toJSON.member "errors" =
          (if es = [] then none else some (.arr (es.map JSON.str))) ∧
        r.toJSON.member "suggestions" =
          (if ss = [] then none else some (.arr (ss.map JSON.str)))) ∧
    (∀ (env : Env) (prog name : String) (rest : List String) (cfg : Bundle) (output : String),
      name ∈ validTestNames → env.GetBundleFromDir PodBundleRoot = .ok cfg →
      env.Output "/usr/local/bin/operator-sdk" ["version"] = .ok output →
      (stdoutOf (main env (prog :: name :: rest)).trace).getLast? =
        some ("\x7b\n    \"results\": [\n        \x7b\n            \"name\": \"" ++ name ++
          "\",\n            \"state\": \"pass\"\n        \x7d\n    ]\n\x7d\n")) ∧
    (∀ (env : Env) (prog name : String) (rest : List String) (cfg : Bundle),
      name ∉ validTestNames → env.GetBundleFromDir PodBundleRoot = .ok cfg →
      stdoutOf (main env (prog :: name :: rest)).trace =
        ["\x7b\n    \"results\": [\n        \x7b\n            \"state\": \"fail\",\n            \"errors\": [\n                \"Valid tests for this image include: capability-level-one capability-level-two capability-level-three capability-level-four capability-level-five\"\n            ]\n        \x7d\n    ]\n\x7d\n"]) := by
  refine ⟨?_, ?_, ?_⟩
  · have hpass : ∀ name : String,
        ∃ (r : TestResult) (es ss : List String),
          (⟨[⟨name, PassState, some [], some []⟩]⟩ : TestStatus).Results = [r] ∧
          r.Errors = some es ∧ r.Suggestions = some ss ∧
          r.toJSON.member "errors" =
            (if es = [] then none else some (.arr (es.map JSON.str))) ∧
          r.toJSON.member "suggestions" =
            (if ss = [] then none else some (.arr (ss.map JSON.str))) := fun name =>
      ⟨⟨name, PassState, some [], some []⟩, [], [], rfl, rfl, rfl,
        (member_lists_pass_status name).1, (member_lists_pass_status name).2⟩
    have hfail :
        ∃ (r : TestResult) (es ss : List String), printValidTests.Results = [r] ∧
          r.Errors = some es ∧ r.Suggestions = some ss ∧
          r.toJSON.member "errors" =
            (if es = [] then none else some (.arr (es.map JSON.str))) ∧
          r.toJSON.member "suggestions" =
            (if ss = [] then none else some (.arr (ss.map JSON.str))) :=
      ⟨⟨"", FailState, some [validTestsMessage], some []⟩, [validTestsMessage], [],
        congrArg TestStatus.Results printValidTests_eq, rfl, rfl, rfl, rfl⟩
    intro st hst
    cases hst with
    | byHandler p hp env bundle st h =>
      rw [handlers_res_ok hp env bundle st h]
      exact hpass p.1
    | byPrintValidTests => exact hfail
    | byMain env osArgs st h =>
      rcases main_res_ok env osArgs st h with h | ⟨name, h⟩
      · rw [h]; exact hfail
      · rw [h]; exact hpass name
  · intro env prog name rest cfg output hn hb hout
    obtain ⟨p, hp, rfl⟩ := exists_handler_of_valid hn
    rw [stdout_recognized_ok hp env prog rest cfg output hb hout, List.getLast?_append,
      printed_pass_status hn]
    rfl
  · intro env prog name rest cfg hn hb
    rw [main_unrecognized env prog name rest cfg hn hb]
    exact congrArg (fun t => [t]) printed_printValidTests

theorem produced_lists_nonnil_output_omits_empty_witness :
    (stdoutOf (main bareEnv ["scorecard-test", "capability-level-five", "extra"]).trace).getLast? =
      some ("\x7b\n    \"results\": [\n        \x7b\n            \"name\": \"" ++
        "capability-level-five" ++
        "\",\n            \"state\": \"pass\"\n        \x7d\n    ]\n\x7d\n") :=
  produced_lists_nonnil_output_omits_empty.2.1 bareEnv "scorecard-test"
    "capability-level-five" ["extra"] bareBundle "operator-sdk version: v1.0.0"
    (by decide) rfl rfl

/-- C6: for each of the five handlers, when the bundle has no `alm-examples`
annotation (the lookup yields the empty string) and the external version
command succeeds, the handler ends normally with a single result in the pass
state whose `Errors` and `Suggestions` are empty; the status is the one
returned for a bundle that has the annotation, and the missing annotation
shows only as a line printed to standard output. -/
theorem handlers_missing_annotation_pass
    (p : String × (Env → Bundle → Run TestStatus)) (hp : p ∈ handlers)
    (env : Env) (bundle other : Bundle) (output : String)
    (ha : bundle.CSV.GetAnnotations "alm-examples" = "")
    (hout : env.Output "/usr/local/bin/operator-sdk" ["version"] = .ok output) :
    (p.2 env bundle).res = .ok ⟨[⟨p.1, PassState, some [], some []⟩]⟩ ∧
    (other.CSV.GetAnnotations "alm-examples" ≠ "" →
      (p.2 env other).res = (p.2 env bundle).res) ∧
    (p.2 env bundle).trace =
      [Event.exec "/usr/local/bin/operator-sdk" ["version"], Event.log (output ++ "\n"),
       Event.stdout "no alm-examples in the bundle CSV\n"] := by
  rw [handlers_ok hp env bundle output hout, handlers_ok hp env other output hout]
  refine ⟨rfl, fun _ => rfl, ?_⟩
  simp [ha, noExamplesLine]

theorem handlers_missing_annotation_pass_witness :
    (CapabilityLevelTwoTest sampleEnv bareBundle).res =
        .ok ⟨[⟨"capability-level-two", PassState, some [], some []⟩]⟩ ∧
      (sampleBundle.CSV.GetAnnotations "alm-examples" ≠ "" →
        (CapabilityLevelTwoTest sampleEnv sampleBundle).res =
          (CapabilityLevelTwoTest sampleEnv bareBundle).res) ∧
      (CapabilityLevelTwoTest sampleEnv bareBundle).trace =
        [Event.exec "/usr/local/bin/operator-sdk" ["version"],
         Event.log ("operator-sdk version: v1.0.0" ++ "\n"),
         Event.stdout "no alm-examples in the bundle CSV\n"] :=
  handlers_missing_annotation_pass (CapabilityLevelTwoTestName, CapabilityLevelTwoTest)
    (by simp [handlers]) sampleEnv bareBundle sampleBundle "operator-sdk version: v1.0.0"
    rfl rfl

/-- C7: for a recognised test name and a successfully read bundle, when the
external version command fails the dispatcher ends by `log.Fatal` (message
"Unable to run operator-sdk: " and the error) right after running the
command, with nothing written to standard output and no status produced; and
whatever the bundle reader returned, the run then does not end normally.
For an unrecognised test name the external command is never run, and the
whole run is the same whatever that command would return. -/
theorem main_version_failure_fatal :
    (∀ (env : Env) (prog name : String) (rest : List String) (cfg : Bundle) (err : String),
      name ∈ validTestNames → env.GetBundleFromDir PodBundleRoot = .ok cfg →
      env.Output "/usr/local/bin/operator-sdk" ["version"] = .error err →
      (main env (prog :: name :: rest)).res = .fatal ("Unable to run operator-sdk: " ++ err) ∧
      (main env (prog :: name :: rest)).trace =
        [Event.readBundle "/bundle", Event.exec "/usr/local/bin/operator-sdk" ["version"]] ∧
      stdoutOf (main env (prog :: name :: rest)).trace = []) ∧
    (∀ (env : Env) (prog name : String) (rest : List String) (err : String),
      name ∈ validTestNames →
      env.Output "/usr/local/bin/operator-sdk" ["version"] = .error err →
      (∃ msg, (main env (prog :: name :: rest)).res = .fatal msg) ∧
      stdoutOf (main env (prog :: name :: rest)).trace = []) ∧
    (∀ (env : Env) (prog name : String) (rest : List String),
      name ∉ validTestNames →
      execsOf (main env (prog :: name :: rest)).trace = [] ∧
      ∀ out : String → List String → Except String String,
        main ⟨env.GetBundleFromDir, out⟩ (prog :: name :: rest) =
          main env (prog :: name :: rest)) := by
  refine ⟨?_, ?_, ?_⟩
  · intro env prog name rest cfg err hn hb hout
    obtain ⟨p, hp, rfl⟩ := exists_handler_of_valid hn
    rw [main_recognized_error hp env prog rest cfg err hb hout]
    exact ⟨rfl, rfl, rfl⟩
  · intro env prog name rest err hn hout
    obtain ⟨p, hp, rfl⟩ := exists_handler_of_valid hn
    cases hb : env.GetBundleFromDir PodBundleRoot with
    | error e =>
      rw [main_read_error env prog p.1 rest e hb]
      exact ⟨⟨e, rfl⟩, rfl⟩
    | ok cfg =>
      rw [main_recognized_error hp env prog rest cfg err hb hout]
      exact ⟨⟨_, rfl⟩, rfl⟩
  · intro env prog name rest hn
    cases hb : env.GetBundleFromDir PodBundleRoot with
    | error e =>
      rw [main_read_error env prog name rest e hb]
      refine ⟨rfl, fun out => ?_⟩
      rw [main_read_error ⟨env.GetBundleFromDir, out⟩ prog name rest e hb]
    | ok cfg =>
      rw [main_unrecognized env prog name rest cfg hn hb]
      refine ⟨rfl, fun out => ?_⟩
      rw [main_unrecognized ⟨env.GetBundleFromDir, out⟩ prog name rest cfg hn hb]

theorem main_version_failure_fatal_witness :
    (main brokenSdkEnv ["scorecard-test", "capability-level-five"]).res =
        .fatal ("Unable to run operator-sdk: " ++ "exit status 1") ∧
      (main brokenSdkEnv ["scorecard-test", "capability-level-five"]).trace =
        [Event.readBundle "/bundle", Event.exec "/usr/local/bin/operator-sdk" ["version"]] ∧
      stdoutOf (main brokenSdkEnv ["scorecard-test", "capability-level-five"]).trace = [] :=
  main_version_failure_fatal.1 brokenSdkEnv "scorecard-test" "capability-level-five" []
    sampleBundle "exit status 1" (by decide) rfl rfl

theorem handlers_eq_generic {p : String × (Env → Bundle → Run TestStatus)}
    (hp : p ∈ handlers) : p.2 = genericHandler p.1 := by
  simp only [handlers, List.mem_cons, List.mem_singleton, List.not_mem_nil, or_false] at hp
  rcases hp with h | h | h | h | h <;> subst h <;> rfl

/-- C9: each of the five handlers is the generic handler applied to its own
name constant; hence for any two of them, on the same environment and
bundle, the events performed agree, the runs end the same way (normally or
by the same fatal message), and the returned statuses are equal once `Name`
is left out. -/
theorem handlers_same_up_to_name :
    CapabilityLevelOneTest = genericHandler CapabilityLevelOneTestName ∧
    CapabilityLevelTwoTest = genericHandler CapabilityLevelTwoTestName ∧
    CapabilityLevelThreeTest = genericHandler CapabilityLevelThreeTestName ∧
    CapabilityLevelFourTest = genericHandler CapabilityLevelFourTestName ∧
    CapabilityLevelFiveTest = genericHandler CapabilityLevelFiveTestName ∧
    ∀ p ∈ handlers, ∀ q ∈ handlers, ∀ (env : Env) (bundle : Bundle),
      (p.2 env bundle).trace = (q.2 env bundle).trace ∧
      (p.2 env bundle).res.map TestStatus.withoutNames =
        (q.2 env bundle).res.map TestStatus.withoutNames := by
  refine ⟨rfl, rfl, rfl, rfl, rfl, ?_⟩
  intro p hp q hq env bundle
  cases hout : env.Output "/usr/local/bin/operator-sdk" ["version"] with
  | error err =>
    rw [handlers_error hp env bundle err hout, handlers_error hq env bundle err hout]
    exact ⟨rfl, rfl⟩
  | ok output =>
    rw [handlers_ok hp env bundle output hout, handlers_ok hq env bundle output hout]
    exact ⟨rfl, rfl⟩

theorem handlers_same_up_to_name_witness :
    (CapabilityLevelOneTest bareEnv bareBundle).trace =
        (CapabilityLevelFiveTest bareEnv bareBundle).trace ∧
      (CapabilityLevelOneTest bareEnv bareBundle).res.map TestStatus.withoutNames =
        (CapabilityLevelFiveTest bareEnv bareBundle).res.map TestStatus.withoutNames :=
  handlers_same_up_to_name.2.2.2.2.2 (CapabilityLevelOneTestName, CapabilityLevelOneTest)
    (by simp [handlers]) (CapabilityLevelFiveTestName, CapabilityLevelFiveTest)
    (by simp [handlers]) bareEnv bareBundle

/-- C10: the result built by `printValidTests` has the empty `Name`, which is
none of the valid test names, an empty `Suggestions` list, and the valid names
only in its single `Errors` string; for an unrecognised test name the
dispatcher ends with exactly this status, whatever the requested name, so the
requested name is not recorded in it. -/
theorem printValidTests_name_empty :
    (∃ r : TestResult, printValidTests = ⟨[r]⟩ ∧ r.Name = "" ∧ r.Name ∉ validTestNames ∧
      r.Suggestions = some [] ∧
      r.Errors = some ["Valid tests for this image include: capability-level-one capability-level-two capability-level-three capability-level-four capability-level-five"]) ∧
    (∀ (env : Env) (prog name : String) (rest : List String) (st : TestStatus),
      name ∉ validTestNames → (main env (prog :: name :: rest)).res = .ok st →
      st = printValidTests ∧
      ∀ r ∈ st.Results, r.Name = "" ∧ (name ≠ "" → r.Name ≠ name)) := by
  constructor
  · exact ⟨⟨"", FailState, some [validTestsMessage], some []⟩, printValidTests_eq, rfl,
      by decide, rfl, rfl⟩
  · intro env prog name rest st hn hres
    have hst : st = printValidTests := by
      cases hb : env.GetBundleFromDir PodBundleRoot with
      | error err => rw [main_read_error env prog name rest err hb] at hres; cases hres
      | ok cfg =>
        rw [main_unrecognized env prog name rest cfg hn hb] at hres
        simp only [Res.ok.injEq] at hres
        exact hres.symm
    refine ⟨hst, ?_⟩
    intro r hr
    rw [hst, printValidTests_eq] at hr
    simp only [List.mem_singleton] at hr
    subst hr
    exact ⟨rfl, fun h e => h e.symm⟩

theorem printValidTests_name_empty_witness :
    (⟨[⟨"", FailState, some [validTestsMessage], some []⟩]⟩ : TestStatus) = printValidTests ∧
      ∀ r ∈ (⟨[⟨"", FailState, some [validTestsMessage], some []⟩]⟩ : TestStatus).Results,
        r.Name = "" ∧ ("level-six" ≠ "" → r.Name ≠ "level-six") :=
  printValidTests_name_empty.2 sampleEnv "scorecard-test" "level-six" ["--verbose"]
    ⟨[⟨"", FailState, some [validTestsMessage], some []⟩]⟩ (by decide) rfl

end Scorecard
